import Mathlib

/-!
Shallow embedding of the position lifecycle and signal-decision engine of the
Kraken scalping bot (`src/services/krakenService.js`, `src/strategies/rsiStrategy.js`,
`src/utils/riskManager.js`, `src/config/constants.js`, `src/index.js`).
JavaScript numbers are modelled as rationals (ℚ); values that can be
`undefined` at a require site are modelled as `Option ℚ`, and JavaScript's
NaN-comparison semantics (`x < undefined` is false) are modelled explicitly.
-/

/-- `String.prototype.startsWith` on character lists. -/
def charListStartsWith : List Char → List Char → Bool
  | [], _ => true
  | _ :: _, [] => false
  | c :: cs, d :: ds => c == d && charListStartsWith cs ds

/-- Substring containment on character lists. -/
def charListContains (hay needle : List Char) : Bool :=
  match hay with
  | [] => needle.isEmpty
  | _ :: t => charListStartsWith needle hay || charListContains t needle

/-- `s.includes(sub)` from JavaScript. -/
def strIncludes (s sub : String) : Bool :=
  charListContains s.toList sub.toList

/-! ### Association-list model of a JavaScript `Map` / plain-object keyed by string

`Map.prototype.set` replaces the value of an existing key in place,
`Map.prototype.delete` removes the key, `Map.prototype.get` returns the value
or `undefined`. -/

def assocGet {α : Type} (m : List (String × α)) (k : String) : Option α :=
  match m with
  | [] => none
  | (k', v) :: rest => if k' = k then some v else assocGet rest k

def assocSet {α : Type} (m : List (String × α)) (k : String) (v : α) : List (String × α) :=
  match m with
  | [] => [(k, v)]
  | (k', v') :: rest => if k' = k then (k, v) :: rest else (k', v') :: assocSet rest k v

def assocDelete {α : Type} (m : List (String × α)) (k : String) : List (String × α) :=
  match m with
  | [] => []
  | (k', v') :: rest => if k' = k then rest else (k', v') :: assocDelete rest k

def assocKeys {α : Type} (m : List (String × α)) : List String :=
  m.map Prod.fst

/-! ### `src/config/constants.js`

The file assigns trading parameters onto the CommonJS `exports` object
(`exports.STOP_LOSS_PERCENT = 2`, ...) and then ends with
`module.exports = { MIN_ORDER_SIZES }`, which replaces the export object
wholesale.  `require('../config/constants')` therefore yields an object whose
only property is `MIN_ORDER_SIZES`; every other property access is `undefined`
(modelled as `none`). -/

structure ConstantsExports where
  STOP_LOSS_PERCENT : Option ℚ
  TAKE_PROFIT_PERCENT : Option ℚ
  LEVERAGED_STOP_LOSS_PERCENT : Option ℚ
  LEVERAGED_TAKE_PROFIT_PERCENT : Option ℚ
  LEVERAGE : Option ℚ
  MAX_POSITIONS : Option ℚ
  hasMinOrderSizes : Bool
deriving DecidableEq

/-- The `exports` object as built up by the `exports.* = ...` assignments in
`constants.js`, before the final `module.exports` reassignment discards it. -/
def initialExportsObject : ConstantsExports :=
  { STOP_LOSS_PERCENT := some 2
    TAKE_PROFIT_PERCENT := some 1
    LEVERAGED_STOP_LOSS_PERCENT := some 1
    LEVERAGED_TAKE_PROFIT_PERCENT := some (1/2)
    LEVERAGE := some 2
    MAX_POSITIONS := some 3
    hasMinOrderSizes := false }

/-- What `require('../config/constants')` actually resolves to: the object from
the final `module.exports = { MIN_ORDER_SIZES }` line. -/
def requiredConstants : ConstantsExports :=
  { STOP_LOSS_PERCENT := none
    TAKE_PROFIT_PERCENT := none
    LEVERAGED_STOP_LOSS_PERCENT := none
    LEVERAGED_TAKE_PROFIT_PERCENT := none
    LEVERAGE := none
    MAX_POSITIONS := none
    hasMinOrderSizes := true }

/-! ### `src/utils/riskManager.js` -/

/-- `this.maxRiskPerTrade = 0.01` in the `RiskManager` constructor. -/
def maxRiskPerTrade : ℚ := 1/100

/-- `this.maxDailyLoss = 0.05`. -/
def maxDailyLoss : ℚ := 5/100

/-- `this.maxOpenPositions = 3`. -/
def maxOpenPositions : ℕ := 3

/-- The `riskMultiplier` computed inside `calculatePositionSize`:
`0.5` above high volatility, `1.5` below low volatility, else `1.0`. -/
def volatilityRiskMultiplier (volatility : ℚ) : ℚ :=
  if 2 < volatility then 1/2
  else if volatility < 1/2 then 3/2
  else 1

/-- `RiskManager.calculatePositionSize(accountBalance, price, stopLossPercent, volatility)`.
The `isNaN` input guards are subsumed by the sign checks in the ℚ model. -/
def calculatePositionSize (accountBalance price stopLossPercent volatility : ℚ) : ℚ :=
  if accountBalance ≤ 0 then 0
  else if price ≤ 0 then 0
  else if stopLossPercent ≤ 0 then 0
  else
    let riskAmount := accountBalance * maxRiskPerTrade * volatilityRiskMultiplier volatility
    let stopLossAmount := price * (stopLossPercent / 100)
    if stopLossAmount < 1/10000000 then 0
    else riskAmount / stopLossAmount

/-! ### Daily risk state (`RiskManager` mutable state)

`dailyPnL` maps a day string to a `{ GBP, USD }` record; `lastResetDay` is the
day string of the last reset.  `canOpenPosition` dereferences
`this.dailyPnL[this.lastResetDay]` without a guard: when that entry is missing
the JavaScript code throws a `TypeError`, modelled as `none`. -/

structure DailyPnl where
  gbp : ℚ
  usd : ℚ
deriving DecidableEq

structure RiskState where
  dailyPnL : List (String × DailyPnl)
  lastResetDay : String
  tradingEnabled : Bool
deriving DecidableEq

/-- `RiskManager.checkDailyReset()`, with the current day string passed explicitly. -/
def checkDailyReset (st : RiskState) (today : String) : RiskState :=
  if today ≠ st.lastResetDay then
    { st with dailyPnL := assocSet st.dailyPnL today ⟨0, 0⟩, lastResetDay := today }
  else st

/-- `RiskManager.canOpenPosition(accountBalance, openPositionsCount)`.
Returns the state after the embedded `checkDailyReset` together with the
result; `none` models the `TypeError` thrown when `dailyPnL[lastResetDay]`
is `undefined`. -/
def canOpenPosition (st : RiskState) (today : String) (accountBalance : ℚ)
    (openPositionsCount : ℕ) : RiskState × Option Bool :=
  match assocGet (checkDailyReset st today).dailyPnL (checkDailyReset st today).lastResetDay with
  | none => (checkDailyReset st today, none)
  | some pnl =>
    if pnl.gbp < 0 ∧ maxDailyLoss * accountBalance ≤ |pnl.gbp| then
      (checkDailyReset st today, some false)
    else if maxOpenPositions ≤ openPositionsCount then (checkDailyReset st today, some false)
    else (checkDailyReset st today, some true)

/-- `RiskManager.updateDailyPnL(profit, currency)`; `usdGbpRate` is
`currencyManager.exchangeRates['USD/GBP']` (default 0.79).  Only the
`'GBP'`/`'USD'` currencies reachable from the call sites are modelled. -/
def updateDailyPnL (st : RiskState) (today : String) (profit : ℚ) (currency : String)
    (usdGbpRate : ℚ) : RiskState :=
  let st₁ := checkDailyReset st today
  let st₂ :=
    if (assocGet st₁.dailyPnL st₁.lastResetDay).isNone then
      { st₁ with dailyPnL := assocSet st₁.dailyPnL st₁.lastResetDay ⟨0, 0⟩ }
    else st₁
  let entry := (assocGet st₂.dailyPnL st₂.lastResetDay).getD ⟨0, 0⟩
  let entry' :=
    if currency = "GBP" then { entry with gbp := entry.gbp + profit }
    else { entry with usd := entry.usd + profit }
  let st₃ := { st₂ with dailyPnL := assocSet st₂.dailyPnL st₂.lastResetDay entry' }
  let gbpEquivalent :=
    if currency = "GBP" then entry'.gbp else entry'.gbp + entry'.usd * usdGbpRate
  if gbpEquivalent < -maxDailyLoss then { st₃ with tradingEnabled := false } else st₃

/-- Repeated same-day `canOpenPosition` calls, threading the state. -/
def canOpenSeq (st : RiskState) (today : String) (bal : ℚ) :
    List ℕ → List (Option Bool)
  | [] => []
  | cnt :: rest =>
    let r := canOpenPosition st today bal cnt
    r.2 :: canOpenSeq r.1 today bal rest

/-- The daily-loss lockout condition as `canOpenPosition` tests it: after the
reset check, the current day's GBP P&L is negative and its magnitude is at
least `maxDailyLoss × accountBalance`. -/
def lossLockedOut (st : RiskState) (today : String) (bal : ℚ) : Prop :=
  ∃ pnl, assocGet (checkDailyReset st today).dailyPnL
      (checkDailyReset st today).lastResetDay = some pnl
    ∧ pnl.gbp < 0 ∧ maxDailyLoss * bal ≤ |pnl.gbp|

/-- The risk state used in the C8 scenario: the current day already carries a
10 GBP loss. -/
def c8State : RiskState :=
  { dailyPnL := [("day1", ⟨-10, 0⟩)], lastResetDay := "day1", tradingEnabled := true }

/-! ### `src/strategies/rsiStrategy.js` -/

structure Candle where
  close : ℚ
  trades : ℕ
deriving DecidableEq

/-- The activity adjustments handed to `RSIStrategy`'s constructor
(`activityAdjuster.adjustForActivity`): only `minTrades` and `rsiPeriod`
are consumed by `validatePrices`/`calculateRSI`. -/
structure Adjustments where
  minTrades : ℚ
  rsiPeriod : ℕ
deriving DecidableEq

/-- `arr.slice(-n)`: the last `n` elements (`slice(-0)` is the whole array). -/
def jsSliceLast {α : Type} (n : ℕ) (l : List α) : List α :=
  if n = 0 then l else l.drop (l.length - n)

/-- Consecutive percentage changes `((p[i] - p[i-1]) / p[i-1]) * 100`. -/
def pctChanges (prices : List ℚ) : List ℚ :=
  (prices.zip prices.tail).map (fun p => (p.2 - p.1) / p.1 * 100)

/-- `RSIStrategy.validatePrices(marketData, symbol)`.  The volatility numbers
it computes are only logged; the accept/reject decision depends on the
active-candle count and the number of distinct recent prices. -/
def validatePrices (adj : Adjustments) (marketData : List Candle) : Bool :=
  let closingPrices := marketData.map (fun d => d.close)
  let recentPrices := jsSliceLast 10 closingPrices
  let uniquePrices := recentPrices.dedup.length
  let activeCandles := (marketData.filter (fun d => 0 < d.trades)).length
  if adj.minTrades ≤ 1 then decide (1 ≤ activeCandles ∧ 1 ≤ uniquePrices)
  else if adj.minTrades ≤ 2 then decide (2 ≤ activeCandles ∧ 1 ≤ uniquePrices)
  else decide (5 ≤ activeCandles ∧ 3 ≤ uniquePrices)

/-- The `changes` array inside `calculateRSI`. -/
def rsiChanges (md : List Candle) : List ℚ :=
  pctChanges (md.map (fun d => d.close))

/-- `avgGain`: mean of the last `rsiPeriod` entries of
`gains[i] = change > 0 ? change : 0`. -/
def rsiAvgGain (adj : Adjustments) (md : List Candle) : ℚ :=
  (jsSliceLast adj.rsiPeriod ((rsiChanges md).map (fun c => if 0 < c then c else 0))).sum
    / (adj.rsiPeriod : ℚ)

/-- `avgLoss`: mean of the last `rsiPeriod` entries of
`losses[i] = change < 0 ? -change : 0`. -/
def rsiAvgLoss (adj : Adjustments) (md : List Candle) : ℚ :=
  (jsSliceLast adj.rsiPeriod ((rsiChanges md).map (fun c => if c < 0 then -c else 0))).sum
    / (adj.rsiPeriod : ℚ)

/-- `RSIStrategy.calculateRSI(marketData)`.  The source returns `[rsi]` (or
`null` when validation rejects); the single value is modelled. -/
def calculateRSI (adj : Adjustments) (md : List Candle) : Option ℚ :=
  if validatePrices adj md then
    some (if rsiAvgLoss adj md = 0 then (if 0 < rsiAvgGain adj md then 70 else 50)
      else if rsiAvgGain adj md = 0 then 30
      else 100 - 100 / (1 + rsiAvgGain adj md / rsiAvgLoss adj md))
  else none

/-- Flat ten-candle series used as the C5 witness. -/
def c5Md : List Candle :=
  [⟨100, 1⟩, ⟨100, 1⟩, ⟨100, 1⟩, ⟨100, 1⟩, ⟨100, 1⟩,
   ⟨100, 1⟩, ⟨100, 1⟩, ⟨100, 1⟩, ⟨100, 1⟩, ⟨100, 1⟩]

/-- Low-activity adjustments (`minTrades = 1`, `rsiPeriod = 5`). -/
def c5Adj : Adjustments := ⟨1, 5⟩

/-! ### Positions and signals -/

/-- The position record stored by `KrakenService.executeTrade` in
`this.positions` (`side` holds the order type string, `'buy'` or `'sell'`). -/
structure Position where
  symbol : String
  side : String
  entryPrice : ℚ
  volume : ℚ
  timestamp : ℕ
  leveraged : Bool
  leverage : ℚ
  currency : String
deriving DecidableEq

/-- A strategy signal `{ action, reason }`; a missing `reason` property is
modelled as the empty string (both are falsy in the `reason &&` test). -/
structure Signal where
  action : String
  reason : String
deriving DecidableEq

/-- The fields of `marketAnalyzer.analyzeMarketConditions` output consumed by
`combineSignals`. -/
structure MarketConditions where
  marketCondition : String
  priceTrend : ℚ
  volatility : ℚ
deriving DecidableEq

/-- `combineSignals(rsiSignal, macdSignal, marketConditions, position)` from
`src/index.js`. -/
def combineSignals (rsiSignal macdSignal : Signal) (mc : MarketConditions)
    (position : Option Position) : Signal :=
  match position with
  | some _ =>
    if rsiSignal.action = "exit" ∨ macdSignal.action = "exit" then
      if rsiSignal.action = "exit" then rsiSignal else macdSignal
    else ⟨"wait", "HOLDING_POSITION"⟩
  | none =>
    if rsiSignal.action = macdSignal.action ∧ rsiSignal.action ≠ "wait" then
      ⟨rsiSignal.action, "CONSENSUS: " ++ rsiSignal.reason ++ " & " ++ macdSignal.reason⟩
    else if rsiSignal.reason ≠ "" ∧ strIncludes rsiSignal.reason "EXTREME" = true then
      rsiSignal
    else if mc.marketCondition = "volatile"
        ∧ (rsiSignal.action = "buy" ∨ macdSignal.action = "buy") then
      if rsiSignal.action = "buy" ∧ macdSignal.action = "buy" then
        ⟨"buy", "VOLATILE_CONSENSUS: " ++ rsiSignal.reason ++ " & " ++ macdSignal.reason⟩
      else ⟨"wait", "VOLATILE_MARKET_CAUTION"⟩
    else if mc.marketCondition = "trending" then
      if 0 < mc.priceTrend ∧ (rsiSignal.action = "buy" ∨ macdSignal.action = "buy") then
        ⟨"buy", "TREND_FOLLOWING: "
          ++ (if rsiSignal.action = "buy" then rsiSignal.reason else macdSignal.reason)⟩
      else if mc.priceTrend < 0 ∧ (rsiSignal.action = "sell" ∨ macdSignal.action = "sell") then
        ⟨"sell", "TREND_FOLLOWING: "
          ++ (if rsiSignal.action = "sell" then rsiSignal.reason else macdSignal.reason)⟩
      else ⟨"wait", "NO_STRONG_SIGNAL"⟩
    else ⟨"wait", "NO_STRONG_SIGNAL"⟩

/-- An RSI signal reachable from `RSIStrategy.getSignal` when the current RSI
is below the extreme oversold threshold. -/
def c6RsiSignal : Signal := ⟨"buy", "EXTREME_OVERSOLD (14.21 < 15)"⟩

def c6MacdSignal : Signal := ⟨"wait", "NEUTRAL_MACD"⟩

def c6Volatile : MarketConditions := ⟨"volatile", 0, 3⟩

/-! ### `KrakenService`: position ledger, order execution, close path -/

abbrev Ledger := List (String × Position)

/-- `closeSide` computed in `closePosition`:
`position.side === 'long' ? 'sell' : 'buy'`. -/
def closeSideOf (side : String) : String :=
  if side = "long" then "sell" else "buy"

/-- `pnlPercent` computed in `closePosition` (and identically in
`checkPositions`): long formula iff `side === 'long'`, otherwise the
short-side formula. -/
def closePnlPercent (side : String) (entryPrice currentPrice : ℚ) : ℚ :=
  if side = "long" then (currentPrice - entryPrice) / entryPrice * 100
  else (entryPrice - currentPrice) / entryPrice * 100

/-- The record stored by `executeTrade` under `this.positions.set(symbol, ...)`;
`side` is the order-type argument (`'buy'`/`'sell'` at the call sites),
`leverage` is the configured leverage when margin is enabled, else 1. -/
def executeTradePosition (symbol side : String) (price volume : ℚ) (ts : ℕ)
    (marginEnabled : Bool) (leverage : ℚ) (currency : String) : Position :=
  { symbol := symbol, side := side, entryPrice := price, volume := volume,
    timestamp := ts, leveraged := marginEnabled,
    leverage := if marginEnabled then leverage else 1, currency := currency }

/-- `KrakenService.executeTrade`: the balance/trade-amount arithmetic feeding
`volume` is exchange input, abstracted as a parameter; `orderOk` tells whether
the `AddOrder` call returned a transaction id (a throw or missing result gives
`false`).  Only on success is the position stored. -/
def executeTrade (positions : Ledger) (symbol side : String) (price volume : ℚ)
    (ts : ℕ) (marginEnabled : Bool) (leverage : ℚ) (currency : String)
    (orderOk : Bool) : Bool × Ledger :=
  if orderOk then
    (true, assocSet positions symbol
      (executeTradePosition symbol side price volume ts marginEnabled leverage currency))
  else (false, positions)

/-- Outbound side effects of `closePosition` on success:
`performanceTracker.recordTrade(...)` and `riskManager.updateDailyPnL(...)`. -/
inductive TrackerEvent where
  | recordTradeEvent (symbol side : String) (entryPrice exitPrice volume profit : ℚ)
      (leveraged : Bool) (leverage : ℚ) (currency reason : String)
  | updatePnlEvent (profit : ℚ)
deriving DecidableEq

/-- `KrakenService.closePosition(symbol, volume, currentPrice, reason)`.
`orderOk` is whether the close `AddOrder` call succeeds; on a throw the inner
catch returns `false` before any tracking or deletion happens. -/
def closePosition (positions : Ledger) (symbol : String) (currentPrice : ℚ)
    (reason : String) (orderOk : Bool) : Bool × Ledger × List TrackerEvent :=
  match assocGet positions symbol with
  | none => (false, positions, [])
  | some position =>
    if orderOk then
      (true, assocDelete positions symbol,
        [TrackerEvent.recordTradeEvent symbol position.side position.entryPrice currentPrice
          position.volume
          (position.volume * currentPrice
            * (closePnlPercent position.side position.entryPrice currentPrice / 100))
          position.leveraged position.leverage
          (if symbol.endsWith "GBP" then "GBP" else "USD") reason,
        TrackerEvent.updatePnlEvent
          (position.volume * currentPrice
            * (closePnlPercent position.side position.entryPrice currentPrice / 100))])
    else (false, positions, [])

/-- A position as `executeTrade` records it after a buy order. -/
def c2Pos : Position := executeTradePosition "XXBTZGBP" "buy" 100 1 0 false 2 "GBP"

def c2Ledger : Ledger := [("XXBTZGBP", c2Pos)]

/-! ### Position monitoring: `checkPositions` and `checkOpenPositions` -/

inductive CloseReason where
  | stopLoss
  | takeProfit
deriving DecidableEq

/-- JavaScript `x < -t` where `t` may be `undefined`: a comparison against
NaN is always false. -/
def jsLtNegOpt (x : ℚ) (t : Option ℚ) : Bool :=
  match t with
  | some v => decide (x < -v)
  | none => false

/-- JavaScript `x > t` where `t` may be `undefined`. -/
def jsGtOpt (x : ℚ) (t : Option ℚ) : Bool :=
  match t with
  | some v => decide (v < x)
  | none => false

/-- `position.leverage || 1` (0 is falsy). -/
def jsOrOne (x : ℚ) : ℚ := if x = 0 then 1 else x

/-- `pnlPercent` in `checkPositions` — the same `side === 'long'` formula as
`closePosition`. -/
def checkPositionsPnl (pos : Position) (currentPrice : ℚ) : ℚ :=
  closePnlPercent pos.side pos.entryPrice currentPrice

/-- The close decision of one `checkPositions` iteration.  The base thresholds
come from the (clobbered) constants module, so `isNaN(undefined)` makes the
fallbacks 2 and 1 effective; the computed `leverageFactor` is never used in
the comparisons; stop-loss is checked first (`pnl <= -stop`), then take-profit
(`pnl >= take`). -/
def checkPositionsCloseReason (pos : Position) (currentPrice : ℚ) : Option CloseReason :=
  let baseStopLoss := if pos.leveraged then requiredConstants.LEVERAGED_STOP_LOSS_PERCENT
    else requiredConstants.STOP_LOSS_PERCENT
  let baseTakeProfit := if pos.leveraged then requiredConstants.LEVERAGED_TAKE_PROFIT_PERCENT
    else requiredConstants.TAKE_PROFIT_PERCENT
  let effectiveStopLoss := baseStopLoss.getD 2
  let effectiveTakeProfit := baseTakeProfit.getD 1
  if checkPositionsPnl pos currentPrice ≤ -effectiveStopLoss then some CloseReason.stopLoss
  else if effectiveTakeProfit ≤ checkPositionsPnl pos currentPrice then
    some CloseReason.takeProfit
  else none

/-- `percentChange` in `checkOpenPositions` (this one tests `side === 'buy'`). -/
def checkOpenPercentChange (pos : Position) (currentPrice : ℚ) : ℚ :=
  if pos.side = "buy" then (currentPrice - pos.entryPrice) / pos.entryPrice * 100
  else (pos.entryPrice - currentPrice) / pos.entryPrice * 100

/-- The close decision of one `checkOpenPositions` iteration:
`leveragedPercentChange` is compared strictly against `-stopLossPercent` and
`takeProfitPercent` taken from the clobbered constants module (`undefined`,
so both NaN comparisons are false); the take-profit check can overwrite the
stop-loss reason. -/
def checkOpenPositionsCloseReason (pos : Position) (currentPrice : ℚ) : Option CloseReason :=
  let leveragedPercentChange := checkOpenPercentChange pos currentPrice * jsOrOne pos.leverage
  let stopLossPercent := if pos.leveraged then requiredConstants.LEVERAGED_STOP_LOSS_PERCENT
    else requiredConstants.STOP_LOSS_PERCENT
  let takeProfitPercent := if pos.leveraged then requiredConstants.LEVERAGED_TAKE_PROFIT_PERCENT
    else requiredConstants.TAKE_PROFIT_PERCENT
  let r₁ := if jsLtNegOpt leveragedPercentChange stopLossPercent = true then
    some CloseReason.stopLoss else none
  if jsGtOpt leveragedPercentChange takeProfitPercent = true then some CloseReason.takeProfit
  else r₁

/-- The C4/C9 scenario position: long, entry 100, spot, leverage 1. -/
def c4ScenarioPos : Position :=
  { symbol := "XXBTZGBP", side := "long", entryPrice := 100, volume := 1,
    timestamp := 0, leveraged := false, leverage := 1, currency := "GBP" }

/-- The C4 claim as stated: whenever the directional move scaled by the
position's leverage is at or beyond the configured (leveraged or spot)
stop-loss threshold, a monitor closes the position with reason STOP_LOSS.
The configured thresholds are the ones written in `constants.js`
(`LEVERAGED_STOP_LOSS_PERCENT = 1`, `STOP_LOSS_PERCENT = 2`). -/
def specConfiguredStopLossPercent (leveraged : Bool) : ℚ :=
  if leveraged then 1 else 2

def claimC4Statement : Prop :=
  ∀ (pos : Position) (currentPrice : ℚ),
    closePnlPercent pos.side pos.entryPrice currentPrice * pos.leverage
        ≤ -(specConfiguredStopLossPercent pos.leveraged) →
      checkPositionsCloseReason pos currentPrice = some CloseReason.stopLoss
      ∨ checkOpenPositionsCloseReason pos currentPrice = some CloseReason.stopLoss

/-- A leveraged long position at entry 100 with leverage 2. -/
def c4Pos : Position :=
  { symbol := "XXBTZGBP", side := "long", entryPrice := 100, volume := 1,
    timestamp := 0, leveraged := true, leverage := 2, currency := "GBP" }

/-! ### `scalpPair` decision execution and ledger operation sequences -/

/-- `this.positions.size >= MAX_POSITIONS` with `MAX_POSITIONS` possibly
`undefined` (then the NaN comparison is false and the cap never binds). -/
def jsGeNatOpt (n : ℕ) (t : Option ℚ) : Bool :=
  match t with
  | some v => decide (v ≤ (n : ℚ))
  | none => false

/-- The ledger effect of one `scalpPair` decision (`switch (finalDecision.action)`):
buy/sell skip when a position exists or `hasReachedMaxPositions()`; sell
additionally requires margin; exit closes only when a position exists. -/
def scalpStep (positions : Ledger) (symbol : String) (decision : Signal)
    (price volume : ℚ) (ts : ℕ) (marginOk : Bool) (leverage : ℚ)
    (currency : String) (orderOk : Bool) : Ledger :=
  if decision.action = "buy" then
    if (assocGet positions symbol).isSome then positions
    else if jsGeNatOpt positions.length requiredConstants.MAX_POSITIONS then positions
    else (executeTrade positions symbol "buy" price volume ts marginOk leverage currency
      orderOk).2
  else if decision.action = "sell" then
    if (assocGet positions symbol).isSome then positions
    else if jsGeNatOpt positions.length requiredConstants.MAX_POSITIONS then positions
    else if marginOk then
      (executeTrade positions symbol "sell" price volume ts true leverage currency orderOk).2
    else positions
  else if decision.action = "exit" then
    if (assocGet positions symbol).isSome then
      (closePosition positions symbol price decision.reason orderOk).2.1
    else positions
  else positions

/-- The ledger-mutating operations of `KrakenService`: a direct
`executeTrade`, a direct `closePosition` (also used by `checkPositions`,
`checkOpenPositions` and `closeAllPositions`), or a `scalpPair` decision. -/
inductive LedgerOp where
  | openTrade (symbol side : String) (price volume : ℚ) (ts : ℕ) (marginEnabled : Bool)
      (leverage : ℚ) (currency : String) (orderOk : Bool)
  | close (symbol : String) (currentPrice : ℚ) (reason : String) (orderOk : Bool)
  | scalp (symbol : String) (decision : Signal) (price volume : ℚ) (ts : ℕ)
      (marginOk : Bool) (leverage : ℚ) (currency : String) (orderOk : Bool)

def applyLedgerOp (positions : Ledger) : LedgerOp → Ledger
  | LedgerOp.openTrade symbol side price volume ts marginEnabled leverage currency orderOk =>
    (executeTrade positions symbol side price volume ts marginEnabled leverage currency
      orderOk).2
  | LedgerOp.close symbol currentPrice reason orderOk =>
    (closePosition positions symbol currentPrice reason orderOk).2.1
  | LedgerOp.scalp symbol decision price volume ts marginOk leverage currency orderOk =>
    scalpStep positions symbol decision price volume ts marginOk leverage currency orderOk

/-- Running a sequence of operations from the empty ledger of the
`KrakenService` constructor (`this.positions = new Map()`). -/
def runLedgerOps (ops : List LedgerOp) : Ledger :=
  ops.foldl applyLedgerOp []

def c1Ledger : Ledger := [("XXBTZGBP", c2Pos)]

/-! ### `KrakenService.apiWithRetry` -/

def MAX_RETRIES : ℕ := 3

/-- `RETRY_DELAY = 2000` milliseconds. -/
def RETRY_DELAY : ℕ := 2000

/-- The non-retryable classification in `apiWithRetry`: the error message
contains `'Invalid key'`, `'Invalid nonce'` or `'Invalid arguments'`. -/
def nonRetryableError (msg : String) : Bool :=
  strIncludes msg "Invalid key" || strIncludes msg "Invalid nonce"
    || strIncludes msg "Invalid arguments"

/-- The retry loop body over the remaining attempt numbers: returns the number
of attempts actually made, the delays slept between attempts, and the final
outcome (the last error is rethrown on exhaustion or on a non-retryable
error). -/
def runAttempts {R : Type} (oracle : ℕ → Except String R) :
    List ℕ → ℕ × List ℕ × Except String R
  | [] => (0, [], Except.error "")
  | a :: rest =>
    match oracle a with
    | Except.ok r => (1, [], Except.ok r)
    | Except.error e =>
      if nonRetryableError e then (1, [], Except.error e)
      else
        match rest with
        | [] => (1, [], Except.error e)
        | b :: rest' =>
          let next := runAttempts oracle (b :: rest')
          (next.1 + 1, RETRY_DELAY :: next.2.1, next.2.2)

/-- `apiWithRetry(method, params)` with the exchange call abstracted as an
oracle from the attempt number to its outcome: attempts `1..MAX_RETRIES`. -/
def apiWithRetry {R : Type} (oracle : ℕ → Except String R) :
    ℕ × List ℕ × Except String R :=
  runAttempts oracle (List.range' 1 MAX_RETRIES)

lemma volatilityRiskMultiplier_pos (v : ℚ) : 0 < volatilityRiskMultiplier v := by
  unfold volatilityRiskMultiplier
  split
  · norm_num
  · split <;> norm_num

lemma calculatePositionSize_formula (b price slp v : ℚ) (hb : 0 < b) (hP : 0 < price)
    (hS : 0 < slp) (hG : 1/10000000 ≤ price * (slp / 100)) :
    calculatePositionSize b price slp v
      = b * maxRiskPerTrade * volatilityRiskMultiplier v / (price * (slp / 100)) := by
  unfold calculatePositionSize
  rw [if_neg (not_le.mpr hb), if_neg (not_le.mpr hP), if_neg (not_le.mpr hS),
    if_neg (not_lt.mpr hG)]

/-- C7 (counterexample part): with `price = 10⁻⁶` and `stopLossPercent = 1` the
stop-loss amount `10⁻⁸` trips the `stopLossAmount < 0.0000001` guard, so the
function returns `0`, which differs from the claimed closed-form value and is
not strictly increasing in the account balance. -/
theorem c7_counterexample :
    calculatePositionSize 100 (1/1000000) 1 1 = 0
    ∧ calculatePositionSize 200 (1/1000000) 1 1 = 0
    ∧ 100 * maxRiskPerTrade * volatilityRiskMultiplier 1 / ((1/1000000) * ((1:ℚ) / 100)) ≠ 0
    ∧ ¬ calculatePositionSize 100 (1/1000000) 1 1 < calculatePositionSize 200 (1/1000000) 1 1 := by
  refine ⟨by norm_num [calculatePositionSize], by norm_num [calculatePositionSize], ?_, ?_⟩
  · norm_num [maxRiskPerTrade, volatilityRiskMultiplier]
  · norm_num [calculatePositionSize]

/-- C7 (amended): provided the computed stop-loss amount `price × stopLossPercent/100`
is at least the `0.0000001` guard threshold, `calculatePositionSize` equals
`accountBalance × maxRiskPerTrade × volatilityMultiplier / (price × stopLossPercent/100)`,
is strictly increasing in the account balance, and strictly decreases as
volatility crosses from `< 0.5` (×1.5) to `[0.5, 2]` (×1.0) to `> 2` (×0.5). -/
theorem c7_position_sizing (price slp : ℚ) (hP : 0 < price) (hS : 0 < slp)
    (hG : 1/10000000 ≤ price * (slp / 100)) :
    (∀ b v, 0 < b → calculatePositionSize b price slp v
        = b * maxRiskPerTrade * volatilityRiskMultiplier v / (price * (slp / 100)))
    ∧ (∀ b b' v, 0 < b → b < b' →
        calculatePositionSize b price slp v < calculatePositionSize b' price slp v)
    ∧ (∀ b vL vM vH, 0 < b → vL < 1/2 → 1/2 ≤ vM → vM ≤ 2 → 2 < vH →
        calculatePositionSize b price slp vH < calculatePositionSize b price slp vM
        ∧ calculatePositionSize b price slp vM < calculatePositionSize b price slp vL) := by
  have hden : 0 < price * (slp / 100) := by positivity
  refine ⟨fun b v hb => calculatePositionSize_formula b price slp v hb hP hS hG, ?_, ?_⟩
  · intro b b' v hb hbb
    rw [calculatePositionSize_formula b price slp v hb hP hS hG,
      calculatePositionSize_formula b' price slp v (hb.trans hbb) hP hS hG]
    have hmv := volatilityRiskMultiplier_pos v
    have hmr : (0:ℚ) < maxRiskPerTrade := by norm_num [maxRiskPerTrade]
    exact (div_lt_div_iff_of_pos_right hden).mpr
      (mul_lt_mul_of_pos_right (mul_lt_mul_of_pos_right hbb hmr) hmv)
  · intro b vL vM vH hb h1 h2 h3 h4
    have hmultH : volatilityRiskMultiplier vH = 1/2 := by
      unfold volatilityRiskMultiplier; rw [if_pos h4]
    have hmultM : volatilityRiskMultiplier vM = 1 := by
      unfold volatilityRiskMultiplier
      rw [if_neg (not_lt.mpr h3), if_neg (not_lt.mpr h2)]
    have hmultL : volatilityRiskMultiplier vL = 3/2 := by
      unfold volatilityRiskMultiplier
      rw [if_neg (not_lt.mpr (by linarith)), if_pos h1]
    rw [calculatePositionSize_formula b price slp vH hb hP hS hG,
      calculatePositionSize_formula b price slp vM hb hP hS hG,
      calculatePositionSize_formula b price slp vL hb hP hS hG,
      hmultH, hmultM, hmultL]
    have hmr : (0:ℚ) < maxRiskPerTrade := by norm_num [maxRiskPerTrade]
    have hbm : 0 < b * maxRiskPerTrade := mul_pos hb hmr
    constructor
    · exact (div_lt_div_iff_of_pos_right hden).mpr
        (mul_lt_mul_of_pos_left (by norm_num) hbm)
    · exact (div_lt_div_iff_of_pos_right hden).mpr
        (mul_lt_mul_of_pos_left (by norm_num) hbm)

/-- Witness for `c7_position_sizing` at balance 100 vs 200, price 10,
stop-loss 2 %, volatility 1. -/
theorem c7_position_sizing_witness :
    calculatePositionSize 100 10 2 1
      = 100 * maxRiskPerTrade * volatilityRiskMultiplier 1 / (10 * ((2:ℚ) / 100))
    ∧ calculatePositionSize 100 10 2 1 < calculatePositionSize 200 10 2 1 := by
  have h := c7_position_sizing 10 2 (by norm_num) (by norm_num) (by norm_num)
  exact ⟨h.1 100 1 (by norm_num), h.2.1 100 200 1 (by norm_num) (by norm_num)⟩

lemma assocGet_assocSet_self {α : Type} (m : List (String × α)) (k : String) (v : α) :
    assocGet (assocSet m k v) k = some v := by
  induction m with
  | nil => simp [assocSet, assocGet]
  | cons hd tl ih =>
    obtain ⟨k', v'⟩ := hd
    by_cases h : k' = k
    · simp [assocSet, assocGet, h]
    · simp [assocSet, assocGet, h, ih]

lemma checkDailyReset_lastResetDay (st : RiskState) (today : String) :
    (checkDailyReset st today).lastResetDay = today ∨
      ((checkDailyReset st today) = st ∧ st.lastResetDay = today) := by
  unfold checkDailyReset
  by_cases h : today = st.lastResetDay
  · simp [h]
  · simp [h]

lemma checkDailyReset_idem (st : RiskState) (today : String) :
    checkDailyReset (checkDailyReset st today) today = checkDailyReset st today := by
  unfold checkDailyReset
  by_cases h : today = st.lastResetDay
  · simp [h]
  · simp [h]

lemma canOpenPosition_lockedOut (st : RiskState) (today : String) (bal : ℚ) (cnt : ℕ)
    (h : lossLockedOut st today bal) :
    canOpenPosition st today bal cnt = (checkDailyReset st today, some false) := by
  obtain ⟨pnl, hget, hneg, habs⟩ := h
  unfold canOpenPosition
  rw [hget]
  simp only [if_pos (And.intro hneg habs)]

lemma lossLockedOut_persists (st : RiskState) (today : String) (bal : ℚ)
    (h : lossLockedOut st today bal) :
    lossLockedOut (checkDailyReset st today) today bal := by
  obtain ⟨pnl, hget, hneg, habs⟩ := h
  exact ⟨pnl, by rw [checkDailyReset_idem]; exact hget, hneg, habs⟩

lemma c8State_get :
    assocGet (checkDailyReset c8State "day1").dailyPnL
      (checkDailyReset c8State "day1").lastResetDay = some ⟨-10, 0⟩ := by
  norm_num [checkDailyReset, c8State, assocGet]

lemma c8State_locked : lossLockedOut c8State "day1" 100 :=
  ⟨⟨-10, 0⟩, c8State_get, by norm_num,
    by rw [show |(-10:ℚ)| = 10 by rw [abs_of_nonpos (by norm_num)]; norm_num]
       norm_num [maxDailyLoss]⟩

/-- C8 (counterexample): with a 10 GBP loss on a 100 GBP balance the lockout
holds, but a later winning trade recorded by `updateDailyPnL` the same day
lifts it — `canOpenPosition` returns `true` again before any day rollover,
contradicting "returns false for every subsequent call on the same calendar
day ... returns true again only after the wall-clock day rolls over". -/
theorem c8_counterexample :
    (canOpenPosition c8State "day1" 100 0).2 = some false
    ∧ (canOpenPosition (updateDailyPnL c8State "day1" 10 "GBP" (79/100)) "day1" 100 0).2
        = some true := by
  constructor
  · rw [canOpenPosition_lockedOut _ _ _ _ c8State_locked]
  · have hupd : updateDailyPnL c8State "day1" 10 "GBP" (79/100)
        = { dailyPnL := [("day1", ⟨0, 0⟩)], lastResetDay := "day1", tradingEnabled := true } := by
      norm_num [updateDailyPnL, checkDailyReset, c8State, assocGet, assocSet, maxDailyLoss]
    rw [hupd]
    norm_num [canOpenPosition, checkDailyReset, assocGet, maxDailyLoss, maxOpenPositions]

/-- C8 (amended): once the current day's GBP loss is at or beyond
`maxDailyLoss × accountBalance`, `canOpenPosition` returns `false`, leaves the
lockout in place, and keeps returning `false` for every subsequent same-day
call as long as no intervening P&L update changes the daily ledger; after the
wall-clock day rolls over the daily P&L is reset to zero and (absent the
position-count limit) `canOpenPosition` returns `true` again. -/
theorem c8_daily_loss_lockout :
    (∀ st today bal cnt, lossLockedOut st today bal →
      (canOpenPosition st today bal cnt).2 = some false
      ∧ lossLockedOut (canOpenPosition st today bal cnt).1 today bal)
    ∧ (∀ st today bal cnts, lossLockedOut st today bal →
      ∀ r ∈ canOpenSeq st today bal cnts, r = some false)
    ∧ (∀ st day bal cnt, day ≠ st.lastResetDay → cnt < maxOpenPositions →
      (canOpenPosition st day bal cnt).2 = some true) := by
  refine ⟨?_, ?_, ?_⟩
  · intro st today bal cnt h
    rw [canOpenPosition_lockedOut st today bal cnt h]
    exact ⟨rfl, lossLockedOut_persists st today bal h⟩
  · intro st today bal cnts
    induction cnts generalizing st with
    | nil => intro _ r hr; simp [canOpenSeq] at hr
    | cons cnt rest ih =>
      intro h r hr
      rw [canOpenSeq] at hr
      rcases List.mem_cons.mp hr with h1 | h2
      · rw [h1, canOpenPosition_lockedOut st today bal cnt h]
      · refine ih ((canOpenPosition st today bal cnt).1) ?_ r ?_
        · rw [canOpenPosition_lockedOut st today bal cnt h]
          exact lossLockedOut_persists st today bal h
        · exact h2
  · intro st day bal cnt hday hcnt
    unfold canOpenPosition
    have hres : checkDailyReset st day =
        { st with dailyPnL := assocSet st.dailyPnL day ⟨0, 0⟩, lastResetDay := day } := by
      unfold checkDailyReset
      rw [if_pos hday]
    rw [hres]
    simp only [assocGet_assocSet_self]
    rw [if_neg (by simp), if_neg (not_le.mpr hcnt)]

/-- Witness for `c8_daily_loss_lockout`: the lockout fires on `c8State` the
same day, and a fresh day unlocks it. -/
theorem c8_daily_loss_lockout_witness :
    (canOpenPosition c8State "day1" 100 0).2 = some false
    ∧ (canOpenPosition c8State "day2" 100 0).2 = some true :=
  ⟨(c8_daily_loss_lockout.1 c8State "day1" 100 0 c8State_locked).1,
    c8_daily_loss_lockout.2.2 c8State "day2" 100 0 (by simp [c8State])
      (by norm_num [maxOpenPositions])⟩

lemma rsiAvgGain_nonneg (adj : Adjustments) (md : List Candle) :
    0 ≤ rsiAvgGain adj md := by
  unfold rsiAvgGain
  apply div_nonneg _ (by positivity)
  apply List.sum_nonneg
  intro x hx
  unfold jsSliceLast at hx
  have hx' : x ∈ (rsiChanges md).map (fun c => if 0 < c then c else 0) := by
    by_cases h : adj.rsiPeriod = 0
    · simpa [h] using hx
    · rw [if_neg h] at hx
      exact List.mem_of_mem_drop hx
  obtain ⟨c, _, rfl⟩ := List.mem_map.mp hx'
  by_cases h : 0 < c
  · simpa [h] using h.le
  · simp [h]

lemma rsiAvgLoss_nonneg (adj : Adjustments) (md : List Candle) :
    0 ≤ rsiAvgLoss adj md := by
  unfold rsiAvgLoss
  apply div_nonneg _ (by positivity)
  apply List.sum_nonneg
  intro x hx
  unfold jsSliceLast at hx
  have hx' : x ∈ (rsiChanges md).map (fun c => if c < 0 then -c else 0) := by
    by_cases h : adj.rsiPeriod = 0
    · simpa [h] using hx
    · rw [if_neg h] at hx
      exact List.mem_of_mem_drop hx
  obtain ⟨c, _, rfl⟩ := List.mem_map.mp hx'
  by_cases h : c < 0
  · simp only [if_pos h]
    linarith
  · simp [h]

/-- C5: on every series accepted by `validatePrices` (with a positive RSI
period and positive closes, the domain on which the float computation is
exact), `calculateRSI` returns 50 when both windowed averages are zero, 70
when the average loss is zero and the average gain positive, 30 when the
average gain is zero and the average loss positive, and always returns a
value in `[0, 100]` — never NaN or infinite. -/
theorem c5_rsi_saturation (adj : Adjustments) (md : List Candle)
    (hv : validatePrices adj md = true) (hp : 0 < adj.rsiPeriod)
    (hcl : ∀ c ∈ md, 0 < c.close) :
    (rsiAvgLoss adj md = 0 → rsiAvgGain adj md = 0 → calculateRSI adj md = some 50)
    ∧ (rsiAvgLoss adj md = 0 → 0 < rsiAvgGain adj md → calculateRSI adj md = some 70)
    ∧ (rsiAvgGain adj md = 0 → 0 < rsiAvgLoss adj md → calculateRSI adj md = some 30)
    ∧ ∃ r, calculateRSI adj md = some r ∧ 0 ≤ r ∧ r ≤ 100 := by
  have hG := rsiAvgGain_nonneg adj md
  have hL := rsiAvgLoss_nonneg adj md
  refine ⟨?_, ?_, ?_, ?_⟩
  · intro hl hg
    unfold calculateRSI
    rw [if_pos hv, if_pos hl, if_neg (by rw [hg]; exact lt_irrefl 0)]
  · intro hl hg
    unfold calculateRSI
    rw [if_pos hv, if_pos hl, if_pos hg]
  · intro hg hl
    unfold calculateRSI
    rw [if_pos hv, if_neg (by exact fun h => absurd h (ne_of_gt hl)), if_pos hg]
  · unfold calculateRSI
    rw [if_pos hv]
    by_cases hl : rsiAvgLoss adj md = 0
    · by_cases hg : 0 < rsiAvgGain adj md
      · exact ⟨70, by rw [if_pos hl, if_pos hg], by norm_num, by norm_num⟩
      · exact ⟨50, by rw [if_pos hl, if_neg hg], by norm_num, by norm_num⟩
    · by_cases hg : rsiAvgGain adj md = 0
      · exact ⟨30, by rw [if_neg hl, if_pos hg], by norm_num, by norm_num⟩
      · refine ⟨100 - 100 / (1 + rsiAvgGain adj md / rsiAvgLoss adj md),
          by rw [if_neg hl, if_neg hg], ?_, ?_⟩
        · have hgp : 0 < rsiAvgGain adj md := lt_of_le_of_ne hG (Ne.symm hg)
          have hlp : 0 < rsiAvgLoss adj md := lt_of_le_of_ne hL (Ne.symm hl)
          have hrs : 0 < rsiAvgGain adj md / rsiAvgLoss adj md := div_pos hgp hlp
          have h1 : 100 / (1 + rsiAvgGain adj md / rsiAvgLoss adj md) ≤ 100 :=
            div_le_self (by norm_num) (by linarith)
          linarith
        · have hgp : 0 < rsiAvgGain adj md := lt_of_le_of_ne hG (Ne.symm hg)
          have hlp : 0 < rsiAvgLoss adj md := lt_of_le_of_ne hL (Ne.symm hl)
          have hrs : 0 < rsiAvgGain adj md / rsiAvgLoss adj md := div_pos hgp hlp
          have h2 : 0 ≤ 100 / (1 + rsiAvgGain adj md / rsiAvgLoss adj md) := by positivity
          linarith

/-- Witness for `c5_rsi_saturation`: a flat series of ten identical closes
yields RSI = 50. -/
theorem c5_rsi_saturation_witness : calculateRSI c5Adj c5Md = some 50 :=
  (c5_rsi_saturation c5Adj c5Md
      (by norm_num [validatePrices, c5Md, c5Adj, jsSliceLast,
        List.dedup_cons_of_mem, List.dedup_cons_of_not_mem])
      (by norm_num [c5Adj]) (by norm_num [c5Md])).1
    (by norm_num [rsiAvgLoss, rsiChanges, pctChanges, c5Md, c5Adj, jsSliceLast])
    (by norm_num [rsiAvgGain, rsiChanges, pctChanges, c5Md, c5Adj, jsSliceLast])

/-- C6 (counterexample): in a volatile regime with no open position,
RSI = Buy with an `EXTREME` reason and MACD = Wait produces a buy (the
extreme-RSI rule fires before the volatile-caution rule), not
Wait/VOLATILE_MARKET_CAUTION, so a buy does not require agreement from both
generators. -/
theorem c6_counterexample :
    (combineSignals c6RsiSignal c6MacdSignal c6Volatile none).action = "buy"
    ∧ combineSignals c6RsiSignal c6MacdSignal c6Volatile none
        ≠ ⟨"wait", "VOLATILE_MARKET_CAUTION"⟩ := by
  constructor
  · decide
  · decide

/-- C6 (amended): with no open position in a volatile regime,
`combineSignals` returns a buy iff both signals are buys or the RSI signal is
a buy whose (truthy) reason contains `EXTREME`; when exactly one of the two
is a buy and the RSI reason does not contain `EXTREME`, the decision is
`wait` with reason `VOLATILE_MARKET_CAUTION`. -/
theorem c6_volatile_caution (r m : Signal) (mc : MarketConditions)
    (hvol : mc.marketCondition = "volatile") :
    ((combineSignals r m mc none).action = "buy" ↔
      ((r.action = "buy" ∧ m.action = "buy")
        ∨ (r.action = "buy" ∧ r.reason ≠ "" ∧ strIncludes r.reason "EXTREME" = true)))
    ∧ (r.action = "buy" → m.action ≠ "buy"
        → ¬(r.reason ≠ "" ∧ strIncludes r.reason "EXTREME" = true)
        → combineSignals r m mc none = ⟨"wait", "VOLATILE_MARKET_CAUTION"⟩)
    ∧ (m.action = "buy" → r.action ≠ "buy"
        → ¬(r.reason ≠ "" ∧ strIncludes r.reason "EXTREME" = true)
        → combineSignals r m mc none = ⟨"wait", "VOLATILE_MARKET_CAUTION"⟩) := by
  refine ⟨?_, ?_, ?_⟩
  · simp only [combineSignals, hvol]
    split_ifs with h1 h2 h3 h4 h5 h6 h7
    · constructor
      · intro hb; exact Or.inl ⟨hb, h1.1 ▸ hb⟩
      · rintro (⟨hb, _⟩ | ⟨hb, _⟩) <;> exact hb
    · constructor
      · intro hb; exact Or.inr ⟨hb, h2⟩
      · rintro (⟨hb, _⟩ | ⟨hb, _⟩) <;> exact hb
    · constructor
      · intro _; exact Or.inl h4
      · intro _; rfl
    · constructor
      · intro hb; exact absurd hb (show ¬("wait" = "buy") by decide)
      · rintro (hb | ⟨hb, he⟩)
        · exact absurd hb h4
        · exact absurd he h2
    all_goals try exact absurd h5 (show ¬("volatile" = "trending") by decide)
    all_goals exact ⟨fun hb => absurd hb (show ¬("wait" = "buy") by decide),
      fun h => h.elim (fun hboth => absurd ⟨trivial, Or.inl hboth.1⟩ h3)
        (fun hex => absurd hex.2 h2)⟩
  · intro hrb hmb hne
    simp only [combineSignals, hvol]
    rw [if_neg, if_neg hne, if_pos ⟨trivial, Or.inl hrb⟩, if_neg]
    · rintro ⟨_, hmb'⟩; exact hmb hmb'
    · rintro ⟨heq, _⟩; exact hmb (heq ▸ hrb)
  · intro hmb hrb hne
    simp only [combineSignals, hvol]
    rw [if_neg, if_neg hne, if_pos ⟨trivial, Or.inr hmb⟩, if_neg]
    · rintro ⟨hrb', _⟩; exact hrb hrb'
    · rintro ⟨heq, _⟩; exact hrb (heq.symm ▸ hmb)

/-- Witness for `c6_volatile_caution`: RSI = Buy (non-extreme reason),
MACD = Wait, volatile market, no position gives Wait/VOLATILE_MARKET_CAUTION. -/
theorem c6_volatile_caution_witness :
    combineSignals ⟨"buy", "CROSSING_OVERSOLD (33.10 < 35)"⟩ ⟨"wait", "NEUTRAL_MACD"⟩
      c6Volatile none = ⟨"wait", "VOLATILE_MARKET_CAUTION"⟩ :=
  (c6_volatile_caution ⟨"buy", "CROSSING_OVERSOLD (33.10 < 35)"⟩ ⟨"wait", "NEUTRAL_MACD"⟩
      c6Volatile rfl).2.1 rfl (by decide) (by decide)

/-- C2: when the close order throws, `closePosition` returns `false`, the
ledger — and in particular the Position record, every field — is unchanged,
and neither `recordTrade` nor `updateDailyPnL` is invoked. -/
theorem c2_close_failure_atomic (positions : Ledger) (symbol : String) (p : Position)
    (currentPrice : ℚ) (reason : String)
    (hp : assocGet positions symbol = some p) :
    closePosition positions symbol currentPrice reason false = (false, positions, [])
    ∧ assocGet (closePosition positions symbol currentPrice reason false).2.1 symbol
        = some p := by
  have h1 : closePosition positions symbol currentPrice reason false
      = (false, positions, []) := by
    unfold closePosition
    rw [hp]
    rfl
  exact ⟨h1, by rw [h1]; exact hp⟩

/-- Witness for `c2_close_failure_atomic` on a one-position ledger. -/
theorem c2_close_failure_atomic_witness :
    closePosition c2Ledger "XXBTZGBP" 95 "STOP_LOSS" false = (false, c2Ledger, [])
    ∧ assocGet (closePosition c2Ledger "XXBTZGBP" 95 "STOP_LOSS" false).2.1 "XXBTZGBP"
        = some c2Pos :=
  c2_close_failure_atomic c2Ledger "XXBTZGBP" c2Pos 95 "STOP_LOSS" rfl

/-- C10: every position stored by `executeTrade` carries the order-type string
as its `side` (never `'long'`); for any such position the close side resolves
to `'buy'` and both `closePosition` and `checkPositions` compute the
short-side P&L formula, the sign-inverse of the long formula. -/
theorem c10_close_side_inversion :
    (∀ symbol side price volume ts marginEnabled leverage currency,
      (executeTradePosition symbol side price volume ts marginEnabled leverage currency).side
        = side)
    ∧ (∀ p : Position, p.side = "buy" ∨ p.side = "sell" → ∀ currentPrice,
      closeSideOf p.side = "buy"
      ∧ closePnlPercent p.side p.entryPrice currentPrice
          = (p.entryPrice - currentPrice) / p.entryPrice * 100
      ∧ closePnlPercent p.side p.entryPrice currentPrice
          = -((currentPrice - p.entryPrice) / p.entryPrice * 100)) := by
  constructor
  · intro symbol side price volume ts marginEnabled leverage currency; rfl
  · rintro p hs currentPrice
    have hns : p.side ≠ "long" := by
      rcases hs with hs | hs <;> rw [hs] <;> decide
    refine ⟨?_, ?_, ?_⟩
    · unfold closeSideOf; rw [if_neg hns]
    · unfold closePnlPercent; rw [if_neg hns]
    · unfold closePnlPercent; rw [if_neg hns]; ring

/-- Witness for `c10_close_side_inversion` on a buy-side position. -/
theorem c10_close_side_inversion_witness :
    (executeTradePosition "XXBTZGBP" "buy" 100 1 0 false 2 "GBP").side = "buy"
    ∧ closeSideOf c2Pos.side = "buy"
    ∧ closePnlPercent c2Pos.side c2Pos.entryPrice 95
        = (c2Pos.entryPrice - 95) / c2Pos.entryPrice * 100 :=
  ⟨c10_close_side_inversion.1 "XXBTZGBP" "buy" 100 1 0 false 2 "GBP",
    (c10_close_side_inversion.2 c2Pos (Or.inl rfl) 95).1,
    (c10_close_side_inversion.2 c2Pos (Or.inl rfl) 95).2.1⟩

lemma checkOpenPositionsCloseReason_eq_none (pos : Position) (currentPrice : ℚ) :
    checkOpenPositionsCloseReason pos currentPrice = none := by
  unfold checkOpenPositionsCloseReason
  cases h : pos.leveraged <;>
    simp [h, requiredConstants, jsLtNegOpt, jsGtOpt]

/-- C9: the final `module.exports = { MIN_ORDER_SIZES }` discards every
`exports.*` threshold binding, so all four stop-loss/take-profit constants
resolve to `undefined` at require sites (while the discarded export object held
2/1/1/0.5); consequently `checkOpenPositions` never decides to close any
position at any price, while `checkPositions` still can close through its
`isNaN` fallbacks (2 % / 1 %). -/
theorem c9_exports_clobbered :
    requiredConstants.STOP_LOSS_PERCENT = none
    ∧ requiredConstants.TAKE_PROFIT_PERCENT = none
    ∧ requiredConstants.LEVERAGED_STOP_LOSS_PERCENT = none
    ∧ requiredConstants.LEVERAGED_TAKE_PROFIT_PERCENT = none
    ∧ initialExportsObject.STOP_LOSS_PERCENT = some 2
    ∧ initialExportsObject.TAKE_PROFIT_PERCENT = some 1
    ∧ initialExportsObject.LEVERAGED_STOP_LOSS_PERCENT = some 1
    ∧ initialExportsObject.LEVERAGED_TAKE_PROFIT_PERCENT = some (1/2)
    ∧ (∀ (pos : Position) (currentPrice : ℚ),
        checkOpenPositionsCloseReason pos currentPrice = none)
    ∧ checkPositionsCloseReason c4ScenarioPos (195/2) = some CloseReason.stopLoss := by
  refine ⟨rfl, rfl, rfl, rfl, rfl, rfl, rfl, rfl,
    checkOpenPositionsCloseReason_eq_none, ?_⟩
  norm_num [checkPositionsCloseReason, checkPositionsPnl, closePnlPercent,
    c4ScenarioPos, requiredConstants]

/-- C4 (counterexample): at current price 99.25 the move is −0.75 %, scaled by
leverage 2 it is −1.5 % ≤ −1 % (the configured leveraged stop-loss), yet
`checkPositions` does not close (it compares the *unscaled* −0.75 % against its
fallback −2 %) and `checkOpenPositions` never closes (its thresholds are
`undefined`). -/
theorem c4_counterexample : ¬ claimC4Statement := by
  intro h
  have h2 := h c4Pos (397/4) (by
    norm_num [closePnlPercent, c4Pos, specConfiguredStopLossPercent])
  rcases h2 with h2 | h2
  · revert h2
    norm_num [checkPositionsCloseReason, checkPositionsPnl, closePnlPercent,
      c4Pos, requiredConstants]
    decide
  · rw [checkOpenPositionsCloseReason_eq_none] at h2
    exact Option.noConfusion h2

/-- C4 (amended): on a `checkPositions` pass, a position is closed with
STOP_LOSS exactly when its unscaled directional move is ≤ −2 % and with
TAKE_PROFIT exactly when the move is not a stop-loss and ≥ 1 % (the `isNaN`
fallbacks, since the configured constants are `undefined`; leverage does not
scale the comparison); `checkOpenPositions` never closes.  In particular the
spec scenario — entry 100, side long, leverage 1, price 97.5 — yields
pnl −2.5 % ≤ −2 % and a STOP_LOSS close. -/
theorem c4_monitor_thresholds :
    (∀ (pos : Position) (currentPrice : ℚ),
      (checkPositionsCloseReason pos currentPrice = some CloseReason.stopLoss
        ↔ checkPositionsPnl pos currentPrice ≤ -2)
      ∧ (checkPositionsCloseReason pos currentPrice = some CloseReason.takeProfit
        ↔ (¬ checkPositionsPnl pos currentPrice ≤ -2
            ∧ 1 ≤ checkPositionsPnl pos currentPrice))
      ∧ checkOpenPositionsCloseReason pos currentPrice = none)
    ∧ checkPositionsPnl c4ScenarioPos (195/2) = -(5/2)
    ∧ checkPositionsCloseReason c4ScenarioPos (195/2) = some CloseReason.stopLoss := by
  refine ⟨fun pos currentPrice => ?_, ?_, ?_⟩
  · have hform : checkPositionsCloseReason pos currentPrice
        = if checkPositionsPnl pos currentPrice ≤ -2 then some CloseReason.stopLoss
          else if 1 ≤ checkPositionsPnl pos currentPrice then some CloseReason.takeProfit
          else none := by
      unfold checkPositionsCloseReason
      cases h : pos.leveraged <;> simp [requiredConstants]
    refine ⟨?_, ?_, checkOpenPositionsCloseReason_eq_none pos currentPrice⟩
    · rw [hform]
      split_ifs with h1 h2 <;> simp_all
    · rw [hform]
      split_ifs with h1 h2 <;> simp_all
  · norm_num [checkPositionsPnl, closePnlPercent, c4ScenarioPos]
  · norm_num [checkPositionsCloseReason, checkPositionsPnl, closePnlPercent,
      c4ScenarioPos, requiredConstants]

lemma mem_assocKeys_assocSet {α : Type} (m : List (String × α)) (k x : String) (v : α)
    (h : x ∈ assocKeys (assocSet m k v)) : x ∈ assocKeys m ∨ x = k := by
  induction m with
  | nil =>
    simp [assocSet, assocKeys] at h
    exact Or.inr h
  | cons hd tl ih =>
    obtain ⟨k', v'⟩ := hd
    by_cases hk : k' = k
    · rw [assocSet, if_pos hk] at h
      simp only [assocKeys, List.map_cons, List.mem_cons] at h ⊢
      rcases h with h | h
      · exact Or.inr h
      · exact Or.inl (Or.inr h)
    · rw [assocSet, if_neg hk] at h
      simp only [assocKeys, List.map_cons, List.mem_cons] at h ⊢
      rcases h with h | h
      · exact Or.inl (Or.inl h)
      · rcases ih h with h1 | h1
        · exact Or.inl (Or.inr h1)
        · exact Or.inr h1

lemma nodup_assocKeys_assocSet {α : Type} (m : List (String × α)) (k : String) (v : α)
    (h : (assocKeys m).Nodup) : (assocKeys (assocSet m k v)).Nodup := by
  induction m with
  | nil => simp [assocSet, assocKeys]
  | cons hd tl ih =>
    obtain ⟨k', v'⟩ := hd
    simp only [assocKeys, List.map_cons, List.nodup_cons] at h
    obtain ⟨hnot, htl⟩ := h
    by_cases hk : k' = k
    · subst hk
      rw [assocSet, if_pos rfl]
      simp only [assocKeys, List.map_cons, List.nodup_cons]
      exact ⟨hnot, htl⟩
    · rw [assocSet, if_neg hk]
      simp only [assocKeys, List.map_cons, List.nodup_cons]
      refine ⟨?_, ih htl⟩
      intro hmem
      rcases mem_assocKeys_assocSet tl k k' v hmem with h1 | h1
      · exact hnot h1
      · exact hk h1

lemma assocKeys_assocDelete_sublist {α : Type} (m : List (String × α)) (k : String) :
    (assocKeys (assocDelete m k)).Sublist (assocKeys m) := by
  induction m with
  | nil => simp [assocDelete]
  | cons hd tl ih =>
    obtain ⟨k', v'⟩ := hd
    by_cases hk : k' = k
    · rw [assocDelete, if_pos hk]
      exact List.sublist_cons_self k' (assocKeys tl)
    · rw [assocDelete, if_neg hk]
      simp only [assocKeys, List.map_cons]
      exact ih.cons₂ k'

lemma nodup_assocKeys_assocDelete {α : Type} (m : List (String × α)) (k : String)
    (h : (assocKeys m).Nodup) : (assocKeys (assocDelete m k)).Nodup :=
  h.sublist (assocKeys_assocDelete_sublist m k)

lemma nodup_executeTrade (positions : Ledger) (symbol side : String) (price volume : ℚ)
    (ts : ℕ) (marginEnabled : Bool) (leverage : ℚ) (currency : String) (orderOk : Bool)
    (h : (assocKeys positions).Nodup) :
    (assocKeys (executeTrade positions symbol side price volume ts marginEnabled leverage
      currency orderOk).2).Nodup := by
  cases orderOk
  · exact h
  · exact nodup_assocKeys_assocSet positions symbol _ h

lemma nodup_closePosition (positions : Ledger) (symbol : String) (currentPrice : ℚ)
    (reason : String) (orderOk : Bool) (h : (assocKeys positions).Nodup) :
    (assocKeys (closePosition positions symbol currentPrice reason orderOk).2.1).Nodup := by
  unfold closePosition
  cases assocGet positions symbol
  · exact h
  · cases orderOk
    · exact h
    · exact nodup_assocKeys_assocDelete positions symbol h

lemma nodup_scalpStep (positions : Ledger) (symbol : String) (decision : Signal)
    (price volume : ℚ) (ts : ℕ) (marginOk : Bool) (leverage : ℚ) (currency : String)
    (orderOk : Bool) (h : (assocKeys positions).Nodup) :
    (assocKeys (scalpStep positions symbol decision price volume ts marginOk leverage
      currency orderOk)).Nodup := by
  unfold scalpStep
  split_ifs
  all_goals first
    | exact h
    | exact nodup_executeTrade _ _ _ _ _ _ _ _ _ _ h
    | exact nodup_closePosition _ _ _ _ _ h

lemma nodup_applyLedgerOp (positions : Ledger) (op : LedgerOp)
    (h : (assocKeys positions).Nodup) : (assocKeys (applyLedgerOp positions op)).Nodup := by
  cases op with
  | openTrade symbol side price volume ts marginEnabled leverage currency orderOk =>
    exact nodup_executeTrade _ _ _ _ _ _ _ _ _ _ h
  | close symbol currentPrice reason orderOk =>
    exact nodup_closePosition _ _ _ _ _ h
  | scalp symbol decision price volume ts marginOk leverage currency orderOk =>
    exact nodup_scalpStep _ _ _ _ _ _ _ _ _ _ h

lemma nodup_foldl_applyLedgerOp (ops : List LedgerOp) :
    ∀ positions : Ledger, (assocKeys positions).Nodup →
      (assocKeys (ops.foldl applyLedgerOp positions)).Nodup := by
  induction ops with
  | nil => intro positions h; simpa using h
  | cons op rest ih =>
    intro positions h
    exact ih _ (nodup_applyLedgerOp positions op h)

/-- C1: over every sequence of open/close/scalp operations starting from the
empty ledger, the position map holds at most one entry per symbol (its key
list stays duplicate-free), and a Buy/Sell decision for a symbol that already
has a position leaves the ledger unchanged (the scalp branches skip). -/
theorem c1_at_most_one_position :
    (∀ ops : List LedgerOp, (assocKeys (runLedgerOps ops)).Nodup)
    ∧ (∀ (ops : List LedgerOp) (sym : String),
        (assocKeys (runLedgerOps ops)).count sym ≤ 1)
    ∧ (∀ (positions : Ledger) (symbol : String) (decision : Signal)
        (price volume : ℚ) (ts : ℕ) (marginOk : Bool) (leverage : ℚ)
        (currency : String) (orderOk : Bool),
        (assocGet positions symbol).isSome = true →
        decision.action = "buy" ∨ decision.action = "sell" →
        scalpStep positions symbol decision price volume ts marginOk leverage currency
          orderOk = positions) := by
  have hnd : ∀ ops : List LedgerOp, (assocKeys (runLedgerOps ops)).Nodup :=
    fun ops => nodup_foldl_applyLedgerOp ops [] (by simp [assocKeys])
  refine ⟨hnd, fun ops sym => List.nodup_iff_count_le_one.mp (hnd ops) sym, ?_⟩
  intro positions symbol decision price volume ts marginOk leverage currency orderOk hsome hact
  unfold scalpStep
  rcases hact with ha | ha
  · rw [if_pos ha, if_pos hsome]
  · rw [if_neg (show ¬(decision.action = "buy") by rw [ha]; decide), if_pos ha,
      if_pos hsome]

/-- Witness for `c1_at_most_one_position`: a buy decision on a symbol that
already has a position does not touch the ledger. -/
theorem c1_at_most_one_position_witness :
    scalpStep c1Ledger "XXBTZGBP" ⟨"buy", "CONSENSUS"⟩ 100 1 0 false 2 "GBP" true
      = c1Ledger :=
  c1_at_most_one_position.2.2 c1Ledger "XXBTZGBP" ⟨"buy", "CONSENSUS"⟩ 100 1 0 false 2
    "GBP" true rfl (Or.inl rfl)

/-- C3 (counterexample): a call that always raises `"Permission denied"` is
attempted 3 times (the message matches none of the non-retryable patterns),
not exactly once as claimed. -/
theorem c3_counterexample :
    (apiWithRetry (fun _ => (Except.error "Permission denied" : Except String Unit))).1 = 3
    ∧ (apiWithRetry
        (fun _ => (Except.error "Permission denied" : Except String Unit))).1 ≠ 1 := by
  constructor
  · decide
  · decide

/-- C3 (amended): a call whose every attempt fails with a message containing
`'Invalid key'`, `'Invalid nonce'` or `'Invalid arguments'` is attempted
exactly once and its error thrown immediately; any other persistent error —
including `"Permission denied"` — is retried: exactly 3 attempts with a
2000 ms delay between consecutive attempts, after which the last error is
thrown. -/
theorem c3_retry_classification :
    (∀ (R : Type) (oracle : ℕ → Except String R) (e : String),
      (∀ a, oracle a = Except.error e) →
      (nonRetryableError e = true →
        apiWithRetry oracle = (1, [], Except.error e))
      ∧ (nonRetryableError e = false →
        apiWithRetry oracle = (3, [RETRY_DELAY, RETRY_DELAY], Except.error e)))
    ∧ nonRetryableError "Permission denied" = false
    ∧ nonRetryableError "EAPI:Invalid key" = true
    ∧ nonRetryableError "EAPI:Invalid nonce" = true
    ∧ nonRetryableError "EGeneral:Invalid arguments" = true := by
  refine ⟨?_, by decide, by decide, by decide, by decide⟩
  intro R oracle e ho
  constructor
  · intro hnr
    show runAttempts oracle (List.range' 1 MAX_RETRIES) = _
    have hr : List.range' 1 MAX_RETRIES = [1, 2, 3] := rfl
    rw [hr]
    simp [runAttempts, ho, hnr]
  · intro hnr
    show runAttempts oracle (List.range' 1 MAX_RETRIES) = _
    have hr : List.range' 1 MAX_RETRIES = [1, 2, 3] := rfl
    rw [hr]
    simp [runAttempts, ho, hnr]

/-- Witness for `c3_retry_classification`: a persistent invalid-nonce error is
attempted once; a persistent timeout is attempted 3 times with two 2-second
delays. -/
theorem c3_retry_classification_witness :
    apiWithRetry (fun _ => (Except.error "EAPI:Invalid nonce" : Except String Unit))
      = (1, [], Except.error "EAPI:Invalid nonce")
    ∧ apiWithRetry (fun _ => (Except.error "ETimeout" : Except String Unit))
      = (3, [RETRY_DELAY, RETRY_DELAY], Except.error "ETimeout") :=
  ⟨(c3_retry_classification.1 Unit _ "EAPI:Invalid nonce" (fun _ => rfl)).1 (by decide),
    (c3_retry_classification.1 Unit _ "ETimeout" (fun _ => rfl)).2 (by decide)⟩
